import Mathlib

/-!
Verification of `src/concurrency/config.py` (django-concurrency settings helper).

Shallow embedding conventions:
* Python strings are `List Char`; `str.upper()` is a character-wise `Char.toUpper`
  (`upperL`), faithful to the ASCII identifiers used by this module.
* The Django settings object and instance attribute dictionaries are association
  lists (`AttrMap`), with `getattr`/`setattr` as lookup/update.
* Functions that may raise `ImproperlyConfigured` return `Except String _`; an
  `.error` result models the exception propagating with no state produced.
* `defaults` is a Python dict iterated in its source (insertion) order.
* `django.core.urlresolvers.get_callable` is modelled abstractly: it maps a dotted
  path to the callable it resolves to (`PyCallable.resolved`).
* `setting_changed.send(...)` inside `__init__` dispatches to receivers; the
  instance's own `_handler` is connected only after the loop, so within the model
  of a single instance those sends have no receiver and are not modelled.
-/

namespace Concurrency

/-- A Python callable value: either the result of resolving a dotted path with
`get_callable`, or any other callable object (identified by a tag). -/
inductive PyCallable where
  | resolved : List Char → PyCallable
  | native : Nat → PyCallable
deriving DecidableEq, Repr

/-- The Python values that flow through `config.py`: strings, booleans,
integers (the policy bit masks are nonnegative), callables, and `None`
standing for any non-string non-callable object. -/
inductive Value where
  | vStr : List Char → Value
  | vBool : Bool → Value
  | vNat : Nat → Value
  | vCallable : PyCallable → Value
  | vNone : Value
deriving DecidableEq, Repr

/-- `django.core.urlresolvers.get_callable`, abstract: resolves a dotted path. -/
def get_callable (path : List Char) : PyCallable := .resolved path

/-- `str.upper()` on the module's ASCII identifiers. -/
def upperL (s : List Char) : List Char := s.map Char.toUpper

-- Module-level flag constants (config.py lines 12-18).
def CONCURRENCY_LIST_EDITABLE_POLICY_SILENT : Nat := 1
def CONCURRENCY_LIST_EDITABLE_POLICY_ABORT_ALL : Nat := 2
def CONCURRENCY_POLICY_RAISE : Nat := 4
def CONCURRENCY_POLICY_CALLBACK : Nat := 8

def CONFLICTS_POLICIES : List Nat :=
  [CONCURRENCY_POLICY_RAISE, CONCURRENCY_POLICY_CALLBACK]

def LIST_EDITABLE_POLICIES : List Nat :=
  [CONCURRENCY_LIST_EDITABLE_POLICY_SILENT, CONCURRENCY_LIST_EDITABLE_POLICY_ABORT_ALL]

/-- Association-list map for attribute dictionaries (instance `__dict__` entries
written through `setattr`, and the Django settings object). -/
abbrev AttrMap := List (List Char × Value)

def AttrMap.get : AttrMap → List Char → Option Value
  | [], _ => none
  | (k, v) :: rest, k' => if k = k' then some v else AttrMap.get rest k'

def AttrMap.set : AttrMap → List Char → Value → AttrMap
  | [], k, v => [(k, v)]
  | (k', v') :: rest, k, v =>
      if k' = k then (k, v) :: rest else (k', v') :: AttrMap.set rest k v

/-- The global `django.conf.settings` object. -/
abbrev Settings := AttrMap

/-- `getattr(settings, name, default)`. -/
def getattrD (st : Settings) (k : List Char) (d : Value) : Value :=
  (AttrMap.get st k).getD d

/-- State of an `AppSettings` instance: `self.prefix` (assigned first in
`__init__`), the attributes written through the dynamic
`setattr(self, name, value)` in `_set_attr`, and `self._callback`. -/
structure AppSettings where
  prefixStr : List Char
  attrs : AttrMap
  _callback : Option PyCallable
deriving DecidableEq, Repr

/-- `AppSettings.defaults` (config.py lines 48-54), in source order. -/
def AppSettings.defaults : List (List Char × Value) :=
  [("ENABLED".toList, .vBool true),
   ("SANITY_CHECK".toList, .vBool true),
   ("FIELD_SIGNER".toList, .vStr ("concurrency.forms.VersionFieldSigner".toList)),
   ("POLICY".toList,
     .vNat (CONCURRENCY_LIST_EDITABLE_POLICY_SILENT ||| CONCURRENCY_POLICY_RAISE)),
   ("CALLBACK".toList, .vStr ("concurrency.views.callback".toList)),
   ("HANDLER409".toList, .vStr ("concurrency.views.conflict".toList))]

def listEditableErrMsg : String :=
  "Invalid value for `CONCURRENCY_POLICY`: Use only one of `CONCURRENCY_LIST_EDITABLE_*` flags"

def conflictErrMsg : String :=
  "Invalid value for `CONCURRENCY_POLICY`: Use only one of `CONCURRENCY_POLICY_*` flags"

/-- `AppSettings._check_config` (config.py lines 73-82), as a function of the
integer `self.POLICY` it reads.  Note the source combines `self.POLICY` with the
group sums using bitwise OR (`|`) and compares against the group sum. -/
def check_config (POLICY : Nat) : Except String Unit :=
  let list_editable_policy := POLICY ||| LIST_EDITABLE_POLICIES.sum
  if list_editable_policy = LIST_EDITABLE_POLICIES.sum then
    .error listEditableErrMsg
  else
    let conflict_policy := POLICY ||| CONFLICTS_POLICIES.sum
    if conflict_policy = CONFLICTS_POLICIES.sum then
      .error conflictErrMsg
    else
      .ok ()

def callbackErrMsg : String :=
  "`CALLBACK` must be a callable or a fullpath to callable"

/-- `AppSettings._set_attr` (config.py lines 84-95).  Recovers the bare name by
dropping `len(self.prefix) + 1` characters, resolves/validates the `CALLBACK`
value (raising before any assignment when it is neither a string nor callable),
and finally writes the attribute. -/
def AppSettings.set_attr (s : AppSettings) (prefix_name : List Char) (value : Value) :
    Except String AppSettings :=
  let name := prefix_name.drop (s.prefixStr.length + 1)
  if name = ("CALLBACK".toList) then
    match value with
    | .vStr path =>
        .ok { s with _callback := some (get_callable path),
                     attrs := AttrMap.set s.attrs name value }
    | .vCallable f =>
        .ok { s with _callback := some f,
                     attrs := AttrMap.set s.attrs name value }
    | _ => .error callbackErrMsg
  else
    .ok { s with attrs := AttrMap.set s.attrs name value }

/-- `AppSettings._handler` (config.py lines 97-104): the `setting_changed`
receiver. -/
def AppSettings.handler (s : AppSettings) (setting : List Char) (value : Value) :
    Except String AppSettings :=
  if s.prefixStr.isPrefixOf setting then s.set_attr setting value else .ok s

/-- `(self.prefix + '_' + name).upper()` (config.py line 65). -/
def settingKey (p n : List Char) : List Char := upperL (p ++ ('_' :: n))

/-- The loop body of `AppSettings.__init__` (config.py lines 64-69), iterating
`defaults` in source order: read the namespaced setting (falling back to the
default), run `_set_attr`, and write the resolved value back onto the global
settings object. -/
def initGo : List (List Char × Value) → AppSettings → Settings →
    Except String (AppSettings × Settings)
  | [], s, st => .ok (s, st)
  | (name, dflt) :: rest, s, st =>
      let prefix_name := settingKey s.prefixStr name
      let value := getattrD st prefix_name dflt
      match s.set_attr prefix_name value with
      | .error e => .error e
      | .ok s' => initGo rest s' (AttrMap.set st prefix_name value)

/-- `AppSettings.__init__` (config.py lines 56-71): sets `self.prefix`, runs the
loop over `defaults`, and connects `_handler` to `setting_changed` (the
connection itself carries no state in the model; deliveries are `handler`). -/
def AppSettings.init (p : List Char) (st : Settings) :
    Except String (AppSettings × Settings) :=
  initGo AppSettings.defaults { prefixStr := p, attrs := [], _callback := none } st

/-- The namespace string of the module-level singleton
`conf = AppSettings('CONCURRENCY')`. -/
def CONCURRENCY_NS : List Char := ("CONCURRENCY".toList)

/-- A freshly started instance (state right after `self.prefix = prefix`),
used to instantiate theorems at concrete inputs. -/
def S0 : AppSettings :=
  { prefixStr := CONCURRENCY_NS, attrs := [], _callback := none }

/-- The instance produced by `AppSettings('CONCURRENCY')` when the global
settings object defines none of the namespaced keys. -/
def confEmpty : AppSettings :=
  { prefixStr := CONCURRENCY_NS,
    attrs := [("ENABLED".toList, .vBool true),
              ("SANITY_CHECK".toList, .vBool true),
              ("FIELD_SIGNER".toList, .vStr ("concurrency.forms.VersionFieldSigner".toList)),
              ("POLICY".toList, .vNat 5),
              ("CALLBACK".toList, .vStr ("concurrency.views.callback".toList)),
              ("HANDLER409".toList, .vStr ("concurrency.views.conflict".toList))],
    _callback := some (get_callable ("concurrency.views.callback".toList)) }

/-- The global settings object produced by `AppSettings('CONCURRENCY')` run
against initially empty settings. -/
def settingsEmpty : Settings :=
  [("CONCURRENCY_ENABLED".toList, .vBool true),
   ("CONCURRENCY_SANITY_CHECK".toList, .vBool true),
   ("CONCURRENCY_FIELD_SIGNER".toList, .vStr ("concurrency.forms.VersionFieldSigner".toList)),
   ("CONCURRENCY_POLICY".toList, .vNat 5),
   ("CONCURRENCY_CALLBACK".toList, .vStr ("concurrency.views.callback".toList)),
   ("CONCURRENCY_HANDLER409".toList, .vStr ("concurrency.views.conflict".toList))]

/-- The instance produced by `AppSettings('CONCURRENCY')` when the global
settings object initially defines only `CONCURRENCY_POLICY = pol`. -/
def confPol (pol : Value) : AppSettings :=
  { prefixStr := CONCURRENCY_NS,
    attrs := [("ENABLED".toList, .vBool true),
              ("SANITY_CHECK".toList, .vBool true),
              ("FIELD_SIGNER".toList, .vStr ("concurrency.forms.VersionFieldSigner".toList)),
              ("POLICY".toList, pol),
              ("CALLBACK".toList, .vStr ("concurrency.views.callback".toList)),
              ("HANDLER409".toList, .vStr ("concurrency.views.conflict".toList))],
    _callback := some (get_callable ("concurrency.views.callback".toList)) }

/-- The global settings object produced by `AppSettings('CONCURRENCY')` run
against settings that initially define only `CONCURRENCY_POLICY = pol`. -/
def settingsPol (pol : Value) : Settings :=
  [("CONCURRENCY_POLICY".toList, pol),
   ("CONCURRENCY_ENABLED".toList, .vBool true),
   ("CONCURRENCY_SANITY_CHECK".toList, .vBool true),
   ("CONCURRENCY_FIELD_SIGNER".toList, .vStr ("concurrency.forms.VersionFieldSigner".toList)),
   ("CONCURRENCY_CALLBACK".toList, .vStr ("concurrency.views.callback".toList)),
   ("CONCURRENCY_HANDLER409".toList, .vStr ("concurrency.views.conflict".toList))]

/-! ### Helper lemmas -/

lemma upperL_append (a b : List Char) : upperL (a ++ b) = upperL a ++ upperL b :=
  List.map_append _ a b

/-- Dropping `len(prefix) + 1` characters of `(prefix + '_' + n).upper()`
leaves `n.upper()`. -/
lemma drop_settingKey (p n : List Char) :
    (settingKey p n).drop (p.length + 1) = upperL n := by
  have hda : ∀ (a b : List Char) (i : Nat), (a ++ b).drop (a.length + i) = b.drop i :=
    fun a b i => List.drop_append i
  have hlen : p.length = (upperL p).length := (List.length_map _ _).symm
  rw [settingKey, upperL_append, hlen]
  simpa [upperL] using hda (upperL p) (Char.toUpper '_' :: upperL n) 1

/-- On names fixed by `upper()`, distinct names give distinct settings keys. -/
lemma settingKey_inj {p n m : List Char} (hn : upperL n = n) (hm : upperL m = m)
    (h : settingKey p n = settingKey p m) : n = m := by
  rw [settingKey, settingKey, upperL_append, upperL_append] at h
  have h2 := (List.append_right_inj (upperL p)).mp h
  simp only [upperL, List.map_cons] at h2
  have h3 := (List.cons.injEq _ _ _ _).mp h2
  rw [← hn, ← hm]
  exact h3.2

lemma AttrMap.get_set_self (m : AttrMap) (k : List Char) (v : Value) :
    AttrMap.get (AttrMap.set m k v) k = some v := by
  induction m with
  | nil => simp [AttrMap.set, AttrMap.get]
  | cons hd tl ih =>
      obtain ⟨k', v'⟩ := hd
      by_cases h : k' = k
      · simp [AttrMap.set, AttrMap.get, h]
      · simp [AttrMap.set, AttrMap.get, h, ih]

lemma AttrMap.get_set_ne (m : AttrMap) {k k' : List Char} (v : Value) (h : k ≠ k') :
    AttrMap.get (AttrMap.set m k v) k' = AttrMap.get m k' := by
  induction m with
  | nil => simp [AttrMap.set, AttrMap.get, h]
  | cons hd tl ih =>
      obtain ⟨k₀, v₀⟩ := hd
      by_cases h₀ : k₀ = k
      · subst h₀
        simp [AttrMap.set, AttrMap.get, h]
      · by_cases h₁ : k₀ = k'
        · simp [AttrMap.set, AttrMap.get, h₀, h₁, Ne.symm h]
        · simp [AttrMap.set, AttrMap.get, h₀, h₁, ih]

/-- Writing a fresh key appends it to the attribute dictionary's key list. -/
lemma AttrMap.map_fst_set_fresh (m : AttrMap) {k : List Char} (v : Value)
    (h : AttrMap.get m k = none) :
    (AttrMap.set m k v).map Prod.fst = m.map Prod.fst ++ [k] := by
  induction m with
  | nil => simp [AttrMap.set]
  | cons hd tl ih =>
      obtain ⟨k₀, v₀⟩ := hd
      rw [AttrMap.get] at h
      by_cases h₀ : k₀ = k
      · simp [h₀] at h
      · rw [AttrMap.set, if_neg h₀]
        simp only [List.map_cons, List.cons_append, List.cons.injEq, true_and]
        exact ih (by simpa [h₀] using h)

lemma set_attr_ok_state {s : AppSettings} {k : List Char} {v : Value} {s' : AppSettings}
    (h : s.set_attr k v = .ok s') :
    s'.prefixStr = s.prefixStr ∧
      s'.attrs = AttrMap.set s.attrs (k.drop (s.prefixStr.length + 1)) v := by
  cases v with
  | vStr path =>
      rw [AppSettings.set_attr] at h
      split at h
      · cases h; exact ⟨rfl, rfl⟩
      · cases h; exact ⟨rfl, rfl⟩
  | vCallable f =>
      rw [AppSettings.set_attr] at h
      split at h
      · cases h; exact ⟨rfl, rfl⟩
      · cases h; exact ⟨rfl, rfl⟩
  | vBool b =>
      rw [AppSettings.set_attr] at h
      split at h
      · exact Except.noConfusion h
      · cases h; exact ⟨rfl, rfl⟩
      · exact fun _ hcc => Value.noConfusion hcc
      · exact fun _ hcc => Value.noConfusion hcc
  | vNat m =>
      rw [AppSettings.set_attr] at h
      split at h
      · exact Except.noConfusion h
      · cases h; exact ⟨rfl, rfl⟩
      · exact fun _ hcc => Value.noConfusion hcc
      · exact fun _ hcc => Value.noConfusion hcc
  | vNone =>
      rw [AppSettings.set_attr] at h
      split at h
      · exact Except.noConfusion h
      · cases h; exact ⟨rfl, rfl⟩
      · exact fun _ hcc => Value.noConfusion hcc
      · exact fun _ hcc => Value.noConfusion hcc

lemma set_attr_vStr (s : AppSettings) (k : List Char) (path : List Char)
    (hname : k.drop (s.prefixStr.length + 1) = ("CALLBACK".toList)) :
    s.set_attr k (Value.vStr path) =
      .ok { s with _callback := some (get_callable path),
                   attrs := AttrMap.set s.attrs ("CALLBACK".toList) (Value.vStr path) } := by
  simp [AppSettings.set_attr, hname]

lemma set_attr_vCallable (s : AppSettings) (k : List Char) (f : PyCallable)
    (hname : k.drop (s.prefixStr.length + 1) = ("CALLBACK".toList)) :
    s.set_attr k (Value.vCallable f) =
      .ok { s with _callback := some f,
                   attrs := AttrMap.set s.attrs ("CALLBACK".toList) (Value.vCallable f) } := by
  simp [AppSettings.set_attr, hname]

lemma set_attr_not_callback (s : AppSettings) (k : List Char) (v : Value)
    (hname : ¬ k.drop (s.prefixStr.length + 1) = ("CALLBACK".toList)) :
    s.set_attr k v =
      .ok { s with attrs := AttrMap.set s.attrs (k.drop (s.prefixStr.length + 1)) v } := by
  simp [AppSettings.set_attr, hname]
  exact fun hh => absurd hh hname

lemma set_attr_invalid (s : AppSettings) (k : List Char) (v : Value)
    (hname : k.drop (s.prefixStr.length + 1) = ("CALLBACK".toList))
    (hstr : ∀ path, v ≠ Value.vStr path)
    (hcall : ∀ f, v ≠ Value.vCallable f) :
    s.set_attr k v = .error callbackErrMsg := by
  cases v with
  | vStr path => exact absurd rfl (hstr path)
  | vCallable f => exact absurd rfl (hcall f)
  | vBool b => simp [AppSettings.set_attr, hname]
  | vNat m => simp [AppSettings.set_attr, hname]
  | vNone => simp [AppSettings.set_attr, hname]

lemma initGo_spec (ds : List (List Char × Value)) (s : AppSettings) (st : Settings)
    (s' : AppSettings) (st' : Settings)
    (hup : ∀ x ∈ ds, upperL x.1 = x.1)
    (hnd : (ds.map Prod.fst).Nodup)
    (h : initGo ds s st = .ok (s', st')) :
    s'.prefixStr = s.prefixStr
    ∧ (∀ x ∈ ds, AttrMap.get s'.attrs x.1
          = some (getattrD st (settingKey s.prefixStr x.1) x.2))
    ∧ (∀ x ∈ ds, AttrMap.get st' (settingKey s.prefixStr x.1)
          = some (getattrD st (settingKey s.prefixStr x.1) x.2))
    ∧ (∀ a, (∀ x ∈ ds, a ≠ x.1) → AttrMap.get s'.attrs a = AttrMap.get s.attrs a)
    ∧ (∀ k, (∀ x ∈ ds, k ≠ settingKey s.prefixStr x.1) →
          AttrMap.get st' k = AttrMap.get st k)
    ∧ ((∀ x ∈ ds, AttrMap.get s.attrs x.1 = none) →
          s'.attrs.map Prod.fst = s.attrs.map Prod.fst ++ ds.map Prod.fst) := by
  induction ds generalizing s st with
  | nil =>
      rw [initGo] at h
      simp only [Except.ok.injEq, Prod.mk.injEq] at h
      obtain ⟨rfl, rfl⟩ := h
      refine ⟨rfl, by simp, by simp, fun a _ => rfl, fun k _ => rfl, by simp⟩
  | cons hd rest ih =>
      obtain ⟨n, d⟩ := hd
      rw [initGo] at h
      split at h
      · exact Except.noConfusion h
      · rename_i s1 heq
        have hupn : upperL n = n := hup (n, d) (by simp)
        have hrest_up : ∀ x ∈ rest, upperL x.1 = x.1 :=
          fun x hx => hup x (List.mem_cons_of_mem _ hx)
        have hnd1 : (n :: rest.map Prod.fst).Nodup := by
          rw [List.map_cons] at hnd
          exact hnd
        have hnd2 := List.nodup_cons.mp hnd1
        have hne_head : ∀ x ∈ rest, x.1 ≠ n := by
          intro x hx hcon
          apply hnd2.1
          rw [← hcon]
          exact List.mem_map_of_mem Prod.fst hx
        obtain ⟨hpre1, hattrs1⟩ := set_attr_ok_state heq
        rw [drop_settingKey, hupn] at hattrs1
        have hih := ih s1 (AttrMap.set st (settingKey s.prefixStr n)
            (getattrD st (settingKey s.prefixStr n) d)) hrest_up hnd2.2 h
        rw [hpre1] at hih
        obtain ⟨hpre2, hattr2, hset2, hfrA, hfrS, hdom⟩ := hih
        have hkey_ne : ∀ x ∈ rest,
            settingKey s.prefixStr x.1 ≠ settingKey s.prefixStr n :=
          fun x hx hcon => hne_head x hx (settingKey_inj (hrest_up x hx) hupn hcon)
        refine ⟨hpre2, ?_, ?_, ?_, ?_, ?_⟩
        · intro x hx
          rcases List.mem_cons.mp hx with rfl | hx2
          · show AttrMap.get s'.attrs n
                = some (getattrD st (settingKey s.prefixStr n) d)
            rw [hfrA n (fun x hx => Ne.symm (hne_head x hx)), hattrs1,
              AttrMap.get_set_self]
          · rw [hattr2 x hx2]
            simp only [getattrD]
            rw [AttrMap.get_set_ne st _ (Ne.symm (hkey_ne x hx2))]
        · intro x hx
          rcases List.mem_cons.mp hx with rfl | hx2
          · show AttrMap.get st' (settingKey s.prefixStr n)
                = some (getattrD st (settingKey s.prefixStr n) d)
            rw [hfrS _ (fun x hx => Ne.symm (hkey_ne x hx)), AttrMap.get_set_self]
          · rw [hset2 x hx2]
            simp only [getattrD]
            rw [AttrMap.get_set_ne st _ (Ne.symm (hkey_ne x hx2))]
        · intro a ha
          have ha_rest : ∀ x ∈ rest, a ≠ x.1 :=
            fun x hx => ha x (List.mem_cons_of_mem _ hx)
          have ha_n : a ≠ n := by simpa using ha (n, d) (List.mem_cons_self _ _)
          rw [hfrA a ha_rest, hattrs1,
            AttrMap.get_set_ne s.attrs _ (Ne.symm ha_n)]
        · intro k hk
          have hk_rest : ∀ x ∈ rest, k ≠ settingKey s.prefixStr x.1 :=
            fun x hx => hk x (List.mem_cons_of_mem _ hx)
          have hk_n : k ≠ settingKey s.prefixStr n := by
            simpa using hk (n, d) (List.mem_cons_self _ _)
          rw [hfrS k hk_rest, AttrMap.get_set_ne st _ (Ne.symm hk_n)]
        · intro hfr
          have hn_none : AttrMap.get s.attrs n = none := by
            simpa using hfr (n, d) (List.mem_cons_self _ _)
          have hrest_none : ∀ x ∈ rest, AttrMap.get s1.attrs x.1 = none := by
            intro x hx
            rw [hattrs1,
              AttrMap.get_set_ne s.attrs _ (Ne.symm (hne_head x hx))]
            exact hfr x (List.mem_cons_of_mem _ hx)
          rw [hdom hrest_none, hattrs1,
            AttrMap.map_fst_set_fresh s.attrs _ hn_none]
          simp


/-! ### Claims -/

/-- C1 (counterexample): the claim says construction raises `ImproperlyConfigured`
whenever the resolved POLICY contains both list-editable flags.  At POLICY = 1|2 = 3
supplied via the global settings, construction nevertheless completes normally:
`__init__` never invokes `_check_config`. -/
theorem C1_counterexample :
    (AppSettings.init CONCURRENCY_NS
        [("CONCURRENCY_POLICY".toList,
          Value.vNat (CONCURRENCY_LIST_EDITABLE_POLICY_SILENT |||
            CONCURRENCY_LIST_EDITABLE_POLICY_ABORT_ALL))]).isOk = true := by decide

/-- C1 (amended): constructing `AppSettings('CONCURRENCY')` performs no policy
validation at all — `_check_config` exists but is never called from `__init__` —
so construction succeeds for EVERY integer POLICY supplied via the global
settings, including values containing both flags of a mutually-exclusive group. -/
theorem C1_init_never_validates_policy (pv : Nat) :
    (AppSettings.init CONCURRENCY_NS
        [("CONCURRENCY_POLICY".toList, Value.vNat pv)]).isOk = true := by rfl

/-- C1 (witness): the amended theorem instantiated at POLICY = 15, a value with
both flags of both mutually-exclusive groups. -/
theorem C1_witness :
    (AppSettings.init CONCURRENCY_NS
        [("CONCURRENCY_POLICY".toList, Value.vNat 15)]).isOk = true :=
  C1_init_never_validates_policy 15

/-- C2 (code bug): `_check_config` raises iff `POLICY | 3 == 3` or
`POLICY | 12 == 12`, not iff both flags of a mutually-exclusive group are set.
Evaluations: POLICY = 15 and POLICY = 7 contain both list-editable flags yet
return normally, while POLICY = 1 and POLICY = 4 contain a single flag yet raise
the "Use only one of" error; POLICY = 5 (the default) passes. -/
theorem C2_check_config_behavior :
    (check_config 15).isOk = true ∧
    (check_config 7).isOk = true ∧
    (check_config 1).isOk = false ∧
    (check_config 4).isOk = false ∧
    (check_config 5).isOk = true := by decide

/-- C3: for every key NAME of `defaults`, after `AppSettings(prefix)` completes,
the instance attribute NAME holds the settings value of
`(prefix + '_' + NAME).upper()` when the global settings object defines it, and
the default value otherwise. -/
theorem C3_settings_override_defaults (p : List Char) (st : Settings)
    (n : List Char) (d : Value) (hmem : (n, d) ∈ AppSettings.defaults)
    (s' : AppSettings) (st' : Settings)
    (hok : AppSettings.init p st = .ok (s', st')) :
    (∀ v, AttrMap.get st (settingKey p n) = some v →
        AttrMap.get s'.attrs n = some v) ∧
    (AttrMap.get st (settingKey p n) = none →
        AttrMap.get s'.attrs n = some d) := by
  have hup : ∀ x ∈ AppSettings.defaults, upperL x.1 = x.1 := by decide
  have hnd : (AppSettings.defaults.map Prod.fst).Nodup := by decide
  have hspec := initGo_spec AppSettings.defaults
      { prefixStr := p, attrs := [], _callback := none } st s' st' hup hnd hok
  have h2 : AttrMap.get s'.attrs n = some (getattrD st (settingKey p n) d) :=
    hspec.2.1 (n, d) hmem
  constructor
  · intro v hv
    rw [h2]
    simp [getattrD, hv]
  · intro hv
    rw [h2]
    simp [getattrD, hv]

/-- C3 (witness): with settings defining CONCURRENCY_POLICY = 9, the constructed
instance's POLICY attribute equals 9 rather than the default 5. -/
theorem C3_witness :
    AttrMap.get (confPol (Value.vNat 9)).attrs ("POLICY".toList) =
      some (Value.vNat 9) :=
  (C3_settings_override_defaults CONCURRENCY_NS
      [("CONCURRENCY_POLICY".toList, Value.vNat 9)] ("POLICY".toList)
      (Value.vNat 5) (by decide) (confPol (Value.vNat 9))
      (settingsPol (Value.vNat 9)) (by rfl)).1 (Value.vNat 9) (by decide)

/-- C4: `_set_attr` on the CALLBACK setting stores `get_callable(value)` in
`_callback` for a string value, stores a callable value unchanged, and raises
`ImproperlyConfigured` for any other value. -/
theorem C4_callback_resolution (s : AppSettings) (k : List Char)
    (hname : k.drop (s.prefixStr.length + 1) = ("CALLBACK".toList)) :
    (∀ path, s.set_attr k (Value.vStr path) =
        .ok { s with _callback := some (get_callable path),
                     attrs := AttrMap.set s.attrs ("CALLBACK".toList)
                        (Value.vStr path) }) ∧
    (∀ f, s.set_attr k (Value.vCallable f) =
        .ok { s with _callback := some f,
                     attrs := AttrMap.set s.attrs ("CALLBACK".toList)
                        (Value.vCallable f) }) ∧
    (∀ v, (∀ path, v ≠ Value.vStr path) → (∀ f, v ≠ Value.vCallable f) →
        s.set_attr k v = .error callbackErrMsg) :=
  ⟨fun path => set_attr_vStr s k path hname,
   fun f => set_attr_vCallable s k f hname,
   fun v hstr hcall => set_attr_invalid s k v hname hstr hcall⟩

/-- C4 (witness): assigning the default dotted path stores its resolved callable. -/
theorem C4_witness :
    S0.set_attr ("CONCURRENCY_CALLBACK".toList)
        (Value.vStr ("concurrency.views.callback".toList)) =
      .ok { S0 with
              _callback := some (get_callable ("concurrency.views.callback".toList)),
              attrs := AttrMap.set S0.attrs ("CALLBACK".toList)
                  (Value.vStr ("concurrency.views.callback".toList)) } :=
  (C4_callback_resolution S0 ("CONCURRENCY_CALLBACK".toList) (by decide)).1 _

/-- C5 (counterexample): the claim says EVERY delivered value for a setting of the
form prefix + '_' + NAME updates the attribute NAME; but for NAME = CALLBACK and
a non-string non-callable value the handler raises `ImproperlyConfigured` and no
attribute is updated. -/
theorem C5_counterexample :
    AppSettings.handler S0 ("CONCURRENCY_CALLBACK".toList) Value.vNone =
      .error callbackErrMsg := by rfl

/-- C5 (amended): delivering a `setting_changed` notification for
prefix + '_' + NAME updates the instance attribute NAME to the new value,
PROVIDED that when NAME = CALLBACK the value is a string or a callable
(otherwise the handler raises instead). -/
theorem C5_handler_updates_attr (s : AppSettings) (n : List Char) (v : Value)
    (hv : n = ("CALLBACK".toList) →
        (∃ path, v = Value.vStr path) ∨ (∃ f, v = Value.vCallable f)) :
    (AppSettings.handler s (s.prefixStr ++ '_' :: n) v).toOption.map
        (fun s2 => AttrMap.get s2.attrs n) = some (some v) := by
  have hda : ∀ (a b : List Char) (i : Nat), (a ++ b).drop (a.length + i) = b.drop i :=
    fun a b i => List.drop_append i
  have hpre : s.prefixStr.isPrefixOf (s.prefixStr ++ '_' :: n) = true :=
    List.isPrefixOf_iff_prefix.mpr (List.prefix_append _ _)
  have hdrop : (s.prefixStr ++ '_' :: n).drop (s.prefixStr.length + 1) = n :=
    hda s.prefixStr ('_' :: n) 1
  rw [AppSettings.handler, if_pos hpre]
  by_cases hncb : n = ("CALLBACK".toList)
  · rcases hv hncb with ⟨path, rfl⟩ | ⟨f, rfl⟩
    · rw [set_attr_vStr s _ path (by rw [hdrop]; exact hncb)]
      show some (AttrMap.get
          (AttrMap.set s.attrs ("CALLBACK".toList) (Value.vStr path)) n) =
        some (some (Value.vStr path))
      rw [hncb, AttrMap.get_set_self]
    · rw [set_attr_vCallable s _ f (by rw [hdrop]; exact hncb)]
      show some (AttrMap.get
          (AttrMap.set s.attrs ("CALLBACK".toList) (Value.vCallable f)) n) =
        some (some (Value.vCallable f))
      rw [hncb, AttrMap.get_set_self]
  · rw [set_attr_not_callback s _ v (by rw [hdrop]; exact hncb)]
    show some (AttrMap.get (AttrMap.set s.attrs
        ((s.prefixStr ++ '_' :: n).drop (s.prefixStr.length + 1)) v) n) =
      some (some v)
    rw [hdrop, AttrMap.get_set_self]

/-- C5 (witness): delivering CONCURRENCY_POLICY = 2 to the handler updates the
POLICY attribute to 2. -/
theorem C5_witness :
    (AppSettings.handler S0 (S0.prefixStr ++ '_' :: ("POLICY".toList))
        (Value.vNat 2)).toOption.map
        (fun s2 => AttrMap.get s2.attrs ("POLICY".toList)) =
      some (some (Value.vNat 2)) :=
  C5_handler_updates_attr S0 ("POLICY".toList) (Value.vNat 2)
    (fun h => absurd h (by decide))

/-- C6: with an uppercase prefix the namespacing round-trips — dropping
`len(prefix) + 1` characters of `(prefix + '_' + NAME).upper()` recovers NAME
for every key of `defaults` — and the attribute names written during
construction are exactly the keys of the `defaults` dictionary. -/
theorem C6_roundtrip_attr_names (p : List Char) (hp : upperL p = p)
    (n : List Char) (d : Value) (hmem : (n, d) ∈ AppSettings.defaults)
    (st : Settings) (s' : AppSettings) (st' : Settings)
    (hok : AppSettings.init p st = .ok (s', st')) :
    (settingKey p n).drop (p.length + 1) = n ∧
    s'.attrs.map Prod.fst = AppSettings.defaults.map Prod.fst := by
  have hup : ∀ x ∈ AppSettings.defaults, upperL x.1 = x.1 := by decide
  have hnd : (AppSettings.defaults.map Prod.fst).Nodup := by decide
  have hspec := initGo_spec AppSettings.defaults
      { prefixStr := p, attrs := [], _callback := none } st s' st' hup hnd hok
  refine ⟨?_, ?_⟩
  · rw [drop_settingKey]
    exact hup (n, d) hmem
  · have hdom : s'.attrs.map Prod.fst =
        ([] : AttrMap).map Prod.fst ++ AppSettings.defaults.map Prod.fst :=
      hspec.2.2.2.2.2 (fun x hx => rfl)
    simpa using hdom

/-- C6 (witness): instantiated at the uppercase prefix CONCURRENCY and
NAME = POLICY with empty initial settings. -/
theorem C6_witness :
    (settingKey CONCURRENCY_NS ("POLICY".toList)).drop (CONCURRENCY_NS.length + 1) =
        ("POLICY".toList) ∧
    confEmpty.attrs.map Prod.fst = AppSettings.defaults.map Prod.fst :=
  C6_roundtrip_attr_names CONCURRENCY_NS (by decide) ("POLICY".toList)
    (Value.vNat 5) (by decide) [] confEmpty settingsEmpty (by rfl)

/-- C7: construction writes every resolved value back onto the global settings
object: after `AppSettings(prefix)` completes, the settings attribute
`(prefix + '_' + NAME).upper()` is defined and equal to the resolved value for
every key NAME of `defaults`, including keys previously absent. -/
theorem C7_settings_writeback (p : List Char) (st : Settings)
    (n : List Char) (d : Value) (hmem : (n, d) ∈ AppSettings.defaults)
    (s' : AppSettings) (st' : Settings)
    (hok : AppSettings.init p st = .ok (s', st')) :
    AttrMap.get st' (settingKey p n) = some (getattrD st (settingKey p n) d) := by
  have hup : ∀ x ∈ AppSettings.defaults, upperL x.1 = x.1 := by decide
  have hnd : (AppSettings.defaults.map Prod.fst).Nodup := by decide
  have hspec := initGo_spec AppSettings.defaults
      { prefixStr := p, attrs := [], _callback := none } st s' st' hup hnd hok
  exact hspec.2.2.1 (n, d) hmem

/-- C7 (witness): starting from empty settings, the previously absent key
CONCURRENCY_HANDLER409 is defined on the settings object after construction. -/
theorem C7_witness :
    AttrMap.get settingsEmpty (settingKey CONCURRENCY_NS ("HANDLER409".toList)) =
      some (Value.vStr ("concurrency.views.conflict".toList)) :=
  C7_settings_writeback CONCURRENCY_NS [] ("HANDLER409".toList)
    (Value.vStr ("concurrency.views.conflict".toList)) (by decide)
    confEmpty settingsEmpty (by rfl)

/-- C8: a `setting_changed` notification whose setting name does not start with
the instance's prefix leaves the instance completely unchanged. -/
theorem C8_foreign_setting_noop (s : AppSettings) (setting : List Char) (v : Value)
    (h : s.prefixStr.isPrefixOf setting = false) :
    AppSettings.handler s setting v = .ok s := by
  simp [AppSettings.handler, h]

/-- C8 (witness): delivering TEMPLATE_DEBUG to the CONCURRENCY instance is a
no-op. -/
theorem C8_witness :
    AppSettings.handler S0 ("TEMPLATE_DEBUG".toList) Value.vNone = .ok S0 :=
  C8_foreign_setting_noop S0 ("TEMPLATE_DEBUG".toList) Value.vNone (by decide)

/-- C9: `_set_attr` on the CALLBACK setting with a value that is neither a string
nor callable raises `ImproperlyConfigured` before performing any assignment: it
produces the error (and no successor state at all), so `_callback` and the
CALLBACK attribute of the caller's instance are left unchanged. -/
theorem C9_invalid_callback_no_write (s : AppSettings) (k : List Char) (v : Value)
    (hname : k.drop (s.prefixStr.length + 1) = ("CALLBACK".toList))
    (hstr : ∀ path, v ≠ Value.vStr path)
    (hcall : ∀ f, v ≠ Value.vCallable f) :
    s.set_attr k v = .error callbackErrMsg ∧
      ∀ s', s.set_attr k v ≠ .ok s' := by
  have he := set_attr_invalid s k v hname hstr hcall
  refine ⟨he, fun s' hok => ?_⟩
  rw [he] at hok
  exact Except.noConfusion hok

/-- C9 (witness): the integer 100 (as in the module docstring's example value)
is rejected for CONCURRENCY_CALLBACK with the `ImproperlyConfigured` message. -/
theorem C9_witness :
    S0.set_attr ("CONCURRENCY_CALLBACK".toList) (Value.vNat 100) =
      .error callbackErrMsg :=
  (C9_invalid_callback_no_write S0 ("CONCURRENCY_CALLBACK".toList) (Value.vNat 100)
    (by decide) (fun path h => Value.noConfusion h)
    (fun f h => Value.noConfusion h)).1

end Concurrency
